import Mathlib

/-!
Shallow embedding of `src/voxel_verification_sample.py`, a GitHub-repository
verification script.  Python functions become pure Lean functions; the two
HTTP GETs become an explicit `HttpResponse` oracle passed to the run; every
`print` becomes a structured `Msg` appended to an output trace; each issued
HTTP request is recorded as its URL in a request trace.
-/

/-- Configuration section `CONFIG["ENV_CONFIG"]` (source lines 23-27). -/
structure EnvConfig where
  github_token_var : String
  github_org_var : String
  env_file : String
deriving DecidableEq

/-- Configuration section `CONFIG["REPO_CONFIG"]` (source lines 30-35). -/
structure RepoConfig where
  repo_name : String
  target_branch : String
  api_version : String
  timeout : Nat
deriving DecidableEq

/-- Configuration `CONFIG["FILES_TO_VERIFY"]["answer_file"]["content_schema"]` (lines 44-48). -/
structure ContentSchema where
  format : String
  pattern : String
  expected_value : String
deriving DecidableEq

/-- Configuration `CONFIG["FILES_TO_VERIFY"]["answer_file"]` (lines 40-49). -/
structure AnswerFileConfig where
  path : String
  must_exist : Bool
  encoding : String
  content_schema : ContentSchema
deriving DecidableEq

/-- Configuration `CONFIG["FILES_TO_VERIFY"]["reference_file"]["content_checks"]` (lines 55-62). -/
structure ContentChecks where
  required_section : String
  required_entries : List String
  check_entries : Bool
deriving DecidableEq

/-- Configuration `CONFIG["FILES_TO_VERIFY"]["reference_file"]` (lines 51-63). -/
structure ReferenceFileConfig where
  path : String
  must_exist : Bool
  encoding : String
  content_checks : ContentChecks
deriving DecidableEq

/-- Configuration `CONFIG["FILES_TO_VERIFY"]` (lines 38-64). -/
structure FilesToVerify where
  answer_file : AnswerFileConfig
  reference_file : ReferenceFileConfig
deriving DecidableEq

/-- Configuration `CONFIG["VERIFICATION_FLOW"]` (lines 67-74). -/
structure VerificationFlow where
  check_answer_file_existence : Bool
  check_answer_format : Bool
  verify_answer_value : Bool
  check_reference_file : Bool
  check_section_existence : Bool
  check_required_entries : Bool
deriving DecidableEq

/-- The whole `CONFIG` dictionary (lines 21-75), as a typed record. -/
structure Config where
  ENV_CONFIG : EnvConfig
  REPO_CONFIG : RepoConfig
  FILES_TO_VERIFY : FilesToVerify
  VERIFICATION_FLOW : VerificationFlow
deriving DecidableEq

/-- The literal `CONFIG` value of the source (lines 21-75). -/
def CONFIG : Config :=
  { ENV_CONFIG :=
      { github_token_var := "MCP_GITHUB_TOKEN"
        github_org_var := "GITHUB_EVAL_ORG"
        env_file := ".mcp_env" }
    REPO_CONFIG :=
      { repo_name := "voxel-engine-docs"
        target_branch := "main"
        api_version := "v3"
        timeout := 10 }
    FILES_TO_VERIFY :=
      { answer_file :=
          { path := "ANSWER.md"
            must_exist := true
            encoding := "utf-8"
            content_schema :=
              { format := "date"
                pattern := "^\\d{4}-\\d{2}-\\d{2}$"
                expected_value := "2023-11-15" } }
        reference_file :=
          { path := "README.md"
            must_exist := true
            encoding := "utf-8"
            content_checks :=
              { required_section := "## Voxel Engine Implementation"
                required_entries :=
                  ["C++ Voxel Engine Fundamentals", "Vulkan-based Voxel Rendering"]
                check_entries := true } } }
    VERIFICATION_FLOW :=
      { check_answer_file_existence := true
        check_answer_format := true
        verify_answer_value := true
        check_reference_file := true
        check_section_existence := true
        check_required_entries := true } }

/-!  Python-semantics helpers. -/

/-- Truthiness of a Python `Optional[str]`: `None` and the empty string are falsy. -/
def pyTruthyStr : Option String → Bool
  | none => false
  | some s => !s.isEmpty

/-- Truthiness of a Python `Optional[dict]`: `None` and the empty dict are falsy. -/
def pyTruthyDict : Option (List (String × String)) → Bool
  | none => false
  | some l => !l.isEmpty

/-- Characters removed by Python `str.strip()` for the ASCII range used here. -/
def isPyWs (c : Char) : Bool :=
  c = ' ' || c = '\t' || c = '\n' || c = '\r' || c = Char.ofNat 11 || c = Char.ofNat 12

/-- Python `s.strip()`: drop leading and trailing whitespace. -/
def pyStrip (s : String) : String :=
  ⟨((s.data.dropWhile isPyWs).reverse.dropWhile isPyWs).reverse⟩

/-- Python `needle in haystack` substring test. -/
def strContains (haystack needle : String) : Bool :=
  (haystack.data.tails).any (fun t => needle.data.isPrefixOf t)

/-- Python `s.replace("\n", "")`. -/
def stripNewlines (s : String) : String :=
  ⟨s.data.filter (fun c => c ≠ '\n')⟩

/-- Value of one character of the standard base64 alphabet, if any. -/
def b64CharVal (c : Char) : Option Nat :=
  if 'A' ≤ c ∧ c ≤ 'Z' then some (c.toNat - 65)
  else if 'a' ≤ c ∧ c ≤ 'z' then some (c.toNat - 97 + 26)
  else if '0' ≤ c ∧ c ≤ '9' then some (c.toNat - 48 + 52)
  else if c = '+' then some 62
  else if c = '/' then some 63
  else none

/-- Regroup a list of sextet values into bytes (3 bytes per 4 sextets,
with the usual truncation for a trailing group of 2 or 3). -/
def b64Group : List Nat → List Nat
  | a :: b :: c :: d :: rest =>
      (a * 4 + b / 16) :: ((b % 16) * 16 + c / 4) :: ((c % 4) * 64 + d) :: b64Group rest
  | [a, b] => [a * 4 + b / 16]
  | [a, b, c] => [a * 4 + b / 16, (b % 16) * 16 + c / 4]
  | _ => []

/-- Model of Python `base64.b64decode` in its default lenient mode: characters
outside the alphabet are discarded, `=` only counts as padding, the total of
data and padding characters must be a multiple of 4, and a trailing group of a
single data character is an error (`none`). -/
def b64decode (s : String) : Option (List Nat) :=
  let sextets := s.data.filterMap b64CharVal
  let pads := (s.data.filter (fun c => c = '=')).length
  if (sextets.length + pads) % 4 = 0 ∧ sextets.length % 4 ≠ 1 then
    some (b64Group sextets)
  else none

/-- Whether a byte is a UTF-8 continuation byte. -/
def isCont (b : Nat) : Bool := 128 ≤ b ∧ b ≤ 191

/-- Strict UTF-8 decoding of a byte list (rejecting overlong encodings and
surrogates), modelling Python `bytes.decode("utf-8")`. -/
def utf8Decode : List Nat → Option (List Char)
  | [] => some []
  | b :: rest =>
    if b ≤ 127 then
      (utf8Decode rest).map (fun cs => Char.ofNat b :: cs)
    else if 194 ≤ b ∧ b ≤ 223 then
      match rest with
      | c1 :: rest2 =>
        if isCont c1 then
          (utf8Decode rest2).map (fun cs => Char.ofNat ((b - 192) * 64 + (c1 - 128)) :: cs)
        else none
      | [] => none
    else if 224 ≤ b ∧ b ≤ 239 then
      match rest with
      | c1 :: c2 :: rest2 =>
        if (if b = 224 then decide (160 ≤ c1 ∧ c1 ≤ 191)
            else if b = 237 then decide (128 ≤ c1 ∧ c1 ≤ 159)
            else isCont c1) && isCont c2 then
          (utf8Decode rest2).map
            (fun cs => Char.ofNat ((b - 224) * 4096 + (c1 - 128) * 64 + (c2 - 128)) :: cs)
        else none
      | _ => none
    else if 240 ≤ b ∧ b ≤ 244 then
      match rest with
      | c1 :: c2 :: c3 :: rest2 =>
        if (if b = 240 then decide (144 ≤ c1 ∧ c1 ≤ 191)
            else if b = 244 then decide (128 ≤ c1 ∧ c1 ≤ 143)
            else isCont c1) && isCont c2 && isCont c3 then
          (utf8Decode rest2).map
            (fun cs =>
              Char.ofNat ((b - 240) * 262144 + (c1 - 128) * 4096 + (c2 - 128) * 64 + (c3 - 128)) :: cs)
        else none
      | _ => none
    else none

/-- Model of `base64.b64decode(x).decode("utf-8")` as used on source line 159.
The source always decodes with the answer file's configured encoding, which is
the constant `"utf-8"`. -/
def decodeB64Utf8 (s : String) : Option String :=
  (b64decode s).bind (fun bytes => (utf8Decode bytes).map (fun cs => ⟨cs⟩))

/-!  Diagnostic output.  Every `print` of the source becomes one structured
message carrying exactly the data interpolated into the printed line. -/

/-- One printed line of the script; the comment after each constructor names
the source line whose `print` it stands for. -/
inductive Msg where
  | banner : Msg                                   -- line 246
  | sepLine : Msg                                  -- lines 247, 294, 301
  | step1Header : Msg                              -- line 250
  | envVarMissing (var envFile : String) : Msg     -- lines 91 and 93
  | envIncomplete : Msg                            -- line 253
  | envLoaded (org repoName : String) : Msg        -- line 257
  | step2Header : Msg                              -- line 260
  | apiNotFound (endpoint : String) : Msg          -- line 126
  | apiFailed (endpoint : String) (statusCode : Nat) : Msg  -- line 129
  | apiException (endpoint err : String) : Msg     -- line 133
  | fileNotFound (branch p : String) : Msg         -- line 153
  | decodeFailed (p err : String) : Msg            -- line 161
  | answerFileMissing (p : String) : Msg           -- line 172
  | answerFileExists (p : String) : Msg            -- line 174
  | formatMismatch (pat : String) : Msg            -- line 183
  | formatOk (pat : String) : Msg                  -- line 185
  | valueMismatch (expected actual : String) : Msg -- line 194
  | valueOk (expected : String) : Msg              -- line 196
  | refFileMissing (p : String) : Msg              -- line 203
  | refFileExists (p : String) : Msg               -- line 207
  | sectionMissing (p sec : String) : Msg          -- line 216
  | sectionFound (sec : String) : Msg              -- line 218
  | entryMissing (p entry : String) : Msg          -- line 230
  | entriesAllPresent (n : Nat) : Msg              -- line 234
  | entriesSomeMissing : Msg                       -- line 236
  | answerStepFailed : Msg                         -- line 273
  | step3Header : Msg                              -- line 277
  | refStepFailed : Msg                            -- line 290
  | successBanner : Msg                            -- line 295
  | summaryHeader : Msg                            -- line 296
  | summaryRepo (org repoName : String) : Msg      -- line 297
  | summaryBranch (branch : String) : Msg          -- line 298
  | summaryAnswer (p expected : String) : Msg      -- line 299
  | summaryReference (p sec : String) : Msg        -- line 300
deriving DecidableEq

/-!  Embedded components. -/

/-- Function `_load_environment` (lines 81-95).  The two optional arguments
are what `os.environ.get` yields for the token and organization variables
after `load_dotenv`; a diagnostic is emitted for each falsy one. -/
def loadEnvironment (cfg : Config) (token org : Option String) :
    (Option String × Option String) × List Msg :=
  let m1 :=
    if !pyTruthyStr token then
      [Msg.envVarMissing cfg.ENV_CONFIG.github_token_var cfg.ENV_CONFIG.env_file]
    else []
  let m2 :=
    if !pyTruthyStr org then
      [Msg.envVarMissing cfg.ENV_CONFIG.github_org_var cfg.ENV_CONFIG.env_file]
    else []
  ((token, org), m1 ++ m2)

/-- Function `_build_headers` (lines 98-104). -/
def buildHeaders (cfg : Config) (githubToken : String) : List (String × String) :=
  [("Authorization", "Bearer " ++ githubToken),
   ("Accept", "application/vnd.github." ++ cfg.REPO_CONFIG.api_version ++ "+json"),
   ("User-Agent", "voxel-engine-verifier")]

/-- One HTTP exchange as seen by `_call_github_api`: either a response with a
status code and a parsed JSON object (modelled as string-valued fields, the
only kind the script reads), or a raised exception (transport failure or a
body that is not JSON). -/
inductive HttpResponse where
  | resp (statusCode : Nat) (body : List (String × String)) : HttpResponse
  | exn (err : String) : HttpResponse
deriving DecidableEq

/-- Python `dict.get(key, default)` on the modelled JSON object. -/
def jsonGetD (body : List (String × String)) (key dflt : String) : String :=
  match body.lookup key with
  | some v => v
  | none => dflt

/-- Function `_call_github_api` (lines 107-134).  The network GET is modelled
by consuming the given `HttpResponse`; the URL it would GET is returned last,
so callers can record the request that was issued. -/
def callGithubApi (cfg : Config) (endpoint : String) (headers : List (String × String))
    (org : String) (response : HttpResponse) :
    (Bool × Option (List (String × String))) × List Msg × String :=
  let apiUrl :=
    "https://api.github.com/repos/" ++ org ++ "/" ++ cfg.REPO_CONFIG.repo_name ++ "/" ++ endpoint
  match response with
  | .exn e => ((false, none), [Msg.apiException endpoint e], apiUrl)
  | .resp statusCode body =>
    if statusCode = 200 then ((true, some body), [], apiUrl)
    else if statusCode = 404 then ((false, none), [Msg.apiNotFound endpoint], apiUrl)
    else ((false, none), [Msg.apiFailed endpoint statusCode], apiUrl)

/-- Function `_get_file_content` (lines 137-162): fetch, then base64 + UTF-8
decode; every failure collapses to `none`. -/
def getFileContent (cfg : Config) (filePath : String) (headers : List (String × String))
    (org : String) (ref : Option String) (response : HttpResponse) :
    Option String × List Msg × String :=
  let branch := ref.getD cfg.REPO_CONFIG.target_branch
  let r := callGithubApi cfg ("contents/" ++ filePath ++ "?ref=" ++ branch) headers org response
  let success := r.1.1
  let fileData := r.1.2
  if !success || !pyTruthyDict fileData then
    (none, r.2.1 ++ [Msg.fileNotFound branch filePath], r.2.2)
  else
    let base64Content := stripNewlines (jsonGetD (fileData.getD []) "content" "")
    match decodeB64Utf8 base64Content with
    | some text => (some text, r.2.1, r.2.2)
    | none => (none, r.2.1 ++ [Msg.decodeFailed filePath "decode error"], r.2.2)

/-- Function `_verify_answer_file_existence` (lines 168-175). -/
def verifyAnswerFileExistence (cfg : Config) (content : Option String) : Bool × List Msg :=
  if cfg.VERIFICATION_FLOW.check_answer_file_existence then
    if !pyTruthyStr content then
      (false, [Msg.answerFileMissing cfg.FILES_TO_VERIFY.answer_file.path])
    else
      (true, [Msg.answerFileExists cfg.FILES_TO_VERIFY.answer_file.path])
  else (true, [])

/-- Shape test for ten characters forming `\d{4}-\d{2}-\d{2}`. -/
def dateShape : List Char → Bool
  | [y1, y2, y3, y4, h1, m1, m2, h2, d1, d2] =>
      y1.isDigit && y2.isDigit && y3.isDigit && y4.isDigit && (h1 == '-') &&
      m1.isDigit && m2.isDigit && (h2 == '-') && d1.isDigit && d2.isDigit
  | _ => false

/-- Semantics of `re.match` at the configured pattern `^\d{4}-\d{2}-\d{2}$`
(line 182): the whole string matches, where `$` also accepts one trailing
newline. -/
def reMatchDate (s : String) : Bool :=
  dateShape s.data || (s.data.getLast? == some '\n' && dateShape s.data.dropLast)

/-- Function `_verify_answer_format` (lines 178-186). -/
def verifyAnswerFormat (cfg : Config) (content : String) : Bool × List Msg :=
  if cfg.VERIFICATION_FLOW.check_answer_format then
    let pat := cfg.FILES_TO_VERIFY.answer_file.content_schema.pattern
    if !reMatchDate (pyStrip content) then
      (false, [Msg.formatMismatch pat])
    else
      (true, [Msg.formatOk pat])
  else (true, [])

/-- Function `_verify_answer_value` (lines 189-197). -/
def verifyAnswerValue (cfg : Config) (content : String) : Bool × List Msg :=
  if cfg.VERIFICATION_FLOW.verify_answer_value then
    let expected := cfg.FILES_TO_VERIFY.answer_file.content_schema.expected_value
    if pyStrip content ≠ expected then
      (false, [Msg.valueMismatch expected (pyStrip content)])
    else
      (true, [Msg.valueOk expected])
  else (true, [])

/-- Function `_verify_reference_file` (lines 200-208). -/
def verifyReferenceFile (cfg : Config) (content : Option String) : Bool × List Msg :=
  if cfg.VERIFICATION_FLOW.check_reference_file && !pyTruthyStr content then
    (false, [Msg.refFileMissing cfg.FILES_TO_VERIFY.reference_file.path])
  else if cfg.VERIFICATION_FLOW.check_reference_file then
    (true, [Msg.refFileExists cfg.FILES_TO_VERIFY.reference_file.path])
  else (true, [])

/-- Function `_verify_required_section` (lines 211-219). -/
def verifyRequiredSection (cfg : Config) (content : String) : Bool × List Msg :=
  if cfg.VERIFICATION_FLOW.check_section_existence then
    let sec := cfg.FILES_TO_VERIFY.reference_file.content_checks.required_section
    if !strContains content sec then
      (false, [Msg.sectionMissing cfg.FILES_TO_VERIFY.reference_file.path sec])
    else
      (true, [Msg.sectionFound sec])
  else (true, [])

/-- Loop body of `_verify_required_entries` (lines 228-231): one warning per
entry absent from the content, and whether all were present. -/
def entriesScan (p content : String) : List String → Bool × List Msg
  | [] => (true, [])
  | e :: rest =>
      let tail := entriesScan p content rest
      if !strContains content e then
        (false, Msg.entryMissing p e :: tail.2)
      else
        (tail.1, tail.2)

/-- Function `_verify_required_entries` (lines 222-238). -/
def verifyRequiredEntries (cfg : Config) (content : String) : Bool × List Msg :=
  if cfg.VERIFICATION_FLOW.check_required_entries &&
      cfg.FILES_TO_VERIFY.reference_file.content_checks.check_entries then
    let entries := cfg.FILES_TO_VERIFY.reference_file.content_checks.required_entries
    let scan := entriesScan cfg.FILES_TO_VERIFY.reference_file.path content entries
    if scan.1 then
      (true, scan.2 ++ [Msg.entriesAllPresent entries.length])
    else
      (false, scan.2 ++ [Msg.entriesSomeMissing])
  else (true, [])

/-!  Orchestrator. -/

/-- The answer-file block of `run_verification` (lines 268-272): the list of
three conditions passed to `all`, where the format and value checks are
guarded by the truthiness of the fetched content.  All three list elements are
evaluated (so their diagnostics are emitted) before `all` conjoins them. -/
def answerChecks (cfg : Config) (content : Option String) : Bool × List Msg :=
  let c1 := verifyAnswerFileExistence cfg content
  let c2 :=
    if pyTruthyStr content then verifyAnswerFormat cfg (content.getD "")
    else (false, [])
  let c3 :=
    if pyTruthyStr content then verifyAnswerValue cfg (content.getD "")
    else (false, [])
  (c1.1 && c2.1 && c3.1, c1.2 ++ c2.2 ++ c3.2)

/-- The reference-file block of `run_verification` (lines 285-289), organised
like `answerChecks`. -/
def referenceChecks (cfg : Config) (content : Option String) : Bool × List Msg :=
  let c1 := verifyReferenceFile cfg content
  let c2 :=
    if pyTruthyStr content then verifyRequiredSection cfg (content.getD "")
    else (false, [])
  let c3 :=
    if pyTruthyStr content then verifyRequiredEntries cfg (content.getD "")
    else (false, [])
  (c1.1 && c2.1 && c3.1, c1.2 ++ c2.2 ++ c3.2)

/-- Summary block printed on full success (lines 294-301). -/
def summaryMsgs (cfg : Config) (org : String) : List Msg :=
  [Msg.sepLine, Msg.successBanner, Msg.summaryHeader,
   Msg.summaryRepo org cfg.REPO_CONFIG.repo_name,
   Msg.summaryBranch cfg.REPO_CONFIG.target_branch,
   Msg.summaryAnswer cfg.FILES_TO_VERIFY.answer_file.path
     cfg.FILES_TO_VERIFY.answer_file.content_schema.expected_value,
   Msg.summaryReference cfg.FILES_TO_VERIFY.reference_file.path
     cfg.FILES_TO_VERIFY.reference_file.content_checks.required_section,
   Msg.sepLine]

/-- Result of one run: the returned boolean, the ordered printed lines, and
the URLs of the HTTP requests that were issued, in order. -/
structure RunResult where
  result : Bool
  output : List Msg
  requests : List String
deriving DecidableEq

/-- Function `run_verification` (lines 244-302).  `envToken` and `envOrg` are
the environment lookups the run would observe; `answerResp` and `refResp` are
the responses of the two HTTP GETs, consumed in program order (the second one
is never requested when the run stops earlier). -/
def runVerification (cfg : Config) (envToken envOrg : Option String)
    (answerResp refResp : HttpResponse) : RunResult :=
  let intro := [Msg.banner, Msg.sepLine, Msg.step1Header]
  let env := loadEnvironment cfg envToken envOrg
  let token := env.1.1
  let org := env.1.2
  if !pyTruthyStr token || !pyTruthyStr org then
    { result := false
      output := intro ++ env.2 ++ [Msg.envIncomplete]
      requests := [] }
  else
    let headers := buildHeaders cfg (token.getD "")
    let out1 := intro ++ env.2 ++
      [Msg.envLoaded (org.getD "") cfg.REPO_CONFIG.repo_name, Msg.step2Header]
    let fetchA :=
      getFileContent cfg cfg.FILES_TO_VERIFY.answer_file.path headers (org.getD "") none answerResp
    let aChecks := answerChecks cfg fetchA.1
    if !aChecks.1 then
      { result := false
        output := out1 ++ fetchA.2.1 ++ aChecks.2 ++ [Msg.answerStepFailed]
        requests := [fetchA.2.2] }
    else
      let out2 := out1 ++ fetchA.2.1 ++ aChecks.2 ++ [Msg.step3Header]
      let fetchR :=
        getFileContent cfg cfg.FILES_TO_VERIFY.reference_file.path headers (org.getD "") none refResp
      let rChecks := referenceChecks cfg fetchR.1
      if !rChecks.1 then
        { result := false
          output := out2 ++ fetchR.2.1 ++ rChecks.2 ++ [Msg.refStepFailed]
          requests := [fetchA.2.2, fetchR.2.2] }
      else
        { result := true
          output := out2 ++ fetchR.2.1 ++ rChecks.2 ++ summaryMsgs cfg (org.getD "")
          requests := [fetchA.2.2, fetchR.2.2] }

/-- The `__main__` block (lines 308-310): `sys.exit(0 if result else 1)`. -/
def mainExitCode (cfg : Config) (envToken envOrg : Option String)
    (answerResp refResp : HttpResponse) : Nat :=
  if (runVerification cfg envToken envOrg answerResp refResp).result then 0 else 1

/-- Classifier for the diagnostics of the format and value checks, used to
state that those checks printed nothing during a run. -/
def isFormatOrValueMsg : Msg → Bool
  | .formatMismatch _ => true
  | .formatOk _ => true
  | .valueMismatch _ _ => true
  | .valueOk _ => true
  | _ => false

/-- The configuration of the source with only `check_entries` (line 61)
switched off. -/
def cfgEntriesOff : Config :=
  { CONFIG with
    FILES_TO_VERIFY :=
      { CONFIG.FILES_TO_VERIFY with
        reference_file :=
          { CONFIG.FILES_TO_VERIFY.reference_file with
            content_checks :=
              { CONFIG.FILES_TO_VERIFY.reference_file.content_checks with
                check_entries := false } } } }

/-!  Helper lemmas. -/

/-- The first character surviving `dropWhile isPyWs` is not whitespace. -/
theorem dropWhile_head_not_ws (l : List Char) :
    ∀ c, ((l.dropWhile isPyWs).head? = some c) → isPyWs c = false := by
  induction l with
  | nil => intro c h; simp [List.dropWhile] at h
  | cons a t ih =>
    intro c h
    rw [List.dropWhile_cons] at h
    split at h
    · exact ih c h
    · rename_i ha
      simp only [List.head?_cons, Option.some.injEq] at h
      subst h
      simpa using ha

/-- A stripped string never ends in a whitespace character. -/
theorem pyStrip_getLast_not_ws (s : String) (c : Char)
    (h : (pyStrip s).data.getLast? = some c) : isPyWs c = false := by
  unfold pyStrip at h
  rw [List.getLast?_reverse] at h
  exact dropWhile_head_not_ws _ c h

/-- On stripped input the optional-trailing-newline case of `re.match` with
the anchored date pattern is impossible, so the match is the plain shape test. -/
theorem reMatchDate_pyStrip (s : String) :
    reMatchDate (pyStrip s) = dateShape (pyStrip s).data := by
  unfold reMatchDate
  cases h : (pyStrip s).data.getLast? with
  | none => simp
  | some c =>
    have hws := pyStrip_getLast_not_ws s c h
    have hcn : c ≠ '\n' := by
      rintro rfl
      simp [isPyWs] at hws
    have hbeq : ((some c : Option Char) == some '\n') = false := by
      simp [hcn]
    simp [hbeq]

/-- Existential characterization of the ten-character date shape. -/
theorem dateShape_iff (cs : List Char) :
    dateShape cs = true ↔
      ∃ y1 y2 y3 y4 mo1 mo2 d1 d2 : Char,
        cs = [y1, y2, y3, y4, '-', mo1, mo2, '-', d1, d2] ∧
        (y1.isDigit ∧ y2.isDigit ∧ y3.isDigit ∧ y4.isDigit ∧
         mo1.isDigit ∧ mo2.isDigit ∧ d1.isDigit ∧ d2.isDigit) := by
  constructor
  · intro h
    unfold dateShape at h
    split at h
    · rename_i y1 y2 y3 y4 h1 mo1 mo2 h2 d1 d2
      simp only [Bool.and_eq_true, beq_iff_eq] at h
      obtain ⟨⟨⟨⟨⟨⟨⟨⟨⟨hy1, hy2⟩, hy3⟩, hy4⟩, hh1⟩, hmo1⟩, hmo2⟩, hh2⟩, hd1⟩, hd2⟩ := h
      subst hh1
      subst hh2
      exact ⟨y1, y2, y3, y4, mo1, mo2, d1, d2, rfl,
        hy1, hy2, hy3, hy4, hmo1, hmo2, hd1, hd2⟩
    · simp at h
  · rintro ⟨y1, y2, y3, y4, mo1, mo2, d1, d2, rfl, h1, h2, h3, h4, h5, h6, h7, h8⟩
    simp [dateShape, h1, h2, h3, h4, h5, h6, h7, h8]

/-- Unfolding of the entries loop: the warnings are exactly one per missing
entry, in the order of the configured list. -/
theorem entriesScan_eq (p content : String) (es : List String) :
    entriesScan p content es =
      (es.all (fun e => strContains content e),
       (es.filter (fun e => !strContains content e)).map (Msg.entryMissing p)) := by
  induction es with
  | nil => rfl
  | cons e t ih =>
    simp only [entriesScan, ih]
    cases h : strContains content e <;> simp [List.all_cons, List.filter_cons, h]

/-- Under the source configuration the answer existence check returns exactly
the truthiness of the fetched content. -/
theorem verifyAnswerFileExistence_fst (c : Option String) :
    (verifyAnswerFileExistence CONFIG c).1 = pyTruthyStr c := by
  unfold verifyAnswerFileExistence
  cases h : pyTruthyStr c <;> simp [h, CONFIG]

/-- Under the source configuration the reference existence check returns
exactly the truthiness of the fetched content. -/
theorem verifyReferenceFile_fst (c : Option String) :
    (verifyReferenceFile CONFIG c).1 = pyTruthyStr c := by
  unfold verifyReferenceFile
  cases h : pyTruthyStr c <;> simp [h, CONFIG]

/-- The conjunction computed by the answer-file `all` block. -/
theorem answerChecks_fst (cfg : Config) (content : Option String) :
    ((answerChecks cfg content).1 = true ↔
      ((verifyAnswerFileExistence cfg content).1 = true ∧ pyTruthyStr content = true ∧
       (verifyAnswerFormat cfg (content.getD "")).1 = true ∧
       (verifyAnswerValue cfg (content.getD "")).1 = true)) := by
  unfold answerChecks
  cases h : pyTruthyStr content <;> simp [h]
  tauto

/-- The conjunction computed by the reference-file `all` block. -/
theorem referenceChecks_fst (cfg : Config) (content : Option String) :
    ((referenceChecks cfg content).1 = true ↔
      ((verifyReferenceFile cfg content).1 = true ∧ pyTruthyStr content = true ∧
       (verifyRequiredSection cfg (content.getD "")).1 = true ∧
       (verifyRequiredEntries cfg (content.getD "")).1 = true)) := by
  unfold referenceChecks
  cases h : pyTruthyStr content <;> simp [h]
  tauto

/-- The API client never emits a format-check or value-check diagnostic. -/
theorem callGithubApi_no_fv (cfg : Config) (ep : String) (hs : List (String × String))
    (o : String) (r : HttpResponse) :
    ∀ m ∈ (callGithubApi cfg ep hs o r).2.1, isFormatOrValueMsg m = false := by
  intro m hm
  rcases r with ⟨code, body⟩ | e
  · by_cases h200 : code = 200
    · simp [callGithubApi, h200] at hm
    · by_cases h404 : code = 404
      · simp [callGithubApi, h200, h404] at hm
        subst hm
        rfl
      · simp [callGithubApi, h200, h404] at hm
        subst hm
        rfl
  · simp [callGithubApi] at hm
    subst hm
    rfl

/-- The environment loader returns the credentials unchanged. -/
theorem loadEnvironment_fst (cfg : Config) (t o : Option String) :
    (loadEnvironment cfg t o).1 = (t, o) := rfl

/-- The content fetcher never emits a format-check or value-check diagnostic. -/
theorem getFileContent_no_fv (cfg : Config) (p : String) (hs : List (String × String))
    (o : String) (ref : Option String) (r : HttpResponse) :
    ∀ m ∈ (getFileContent cfg p hs o ref r).2.1, isFormatOrValueMsg m = false := by
  intro m hm
  simp only [getFileContent] at hm
  split at hm
  · simp at hm
    rcases hm with hm | hm
    · exact callGithubApi_no_fv cfg _ hs o r m hm
    · subst hm
      rfl
  · split at hm
    · simp at hm
      exact callGithubApi_no_fv cfg _ hs o r m hm
    · simp at hm
      rcases hm with hm | hm
      · exact callGithubApi_no_fv cfg _ hs o r m hm
      · subst hm
        rfl

/-- The boolean `run_verification` returns, as the conjunction of the
environment guard and the two check blocks over the fetched contents. -/
theorem runVerification_result (cfg : Config) (envToken envOrg : Option String)
    (a r : HttpResponse) :
    (runVerification cfg envToken envOrg a r).result =
      (pyTruthyStr envToken && pyTruthyStr envOrg &&
       (answerChecks cfg
         (getFileContent cfg cfg.FILES_TO_VERIFY.answer_file.path
           (buildHeaders cfg (envToken.getD "")) (envOrg.getD "") none a).1).1 &&
       (referenceChecks cfg
         (getFileContent cfg cfg.FILES_TO_VERIFY.reference_file.path
           (buildHeaders cfg (envToken.getD "")) (envOrg.getD "") none r).1).1) := by
  unfold runVerification
  cases ht : pyTruthyStr envToken <;> cases ho : pyTruthyStr envOrg <;>
    simp [loadEnvironment_fst, ht, ho]
  cases ha : (answerChecks cfg
      (getFileContent cfg cfg.FILES_TO_VERIFY.answer_file.path
        (buildHeaders cfg (envToken.getD "")) (envOrg.getD "") none a).1).1 <;>
    simp [ha]
  cases hr : (referenceChecks cfg
      (getFileContent cfg cfg.FILES_TO_VERIFY.reference_file.path
        (buildHeaders cfg (envToken.getD "")) (envOrg.getD "") none r).1).1 <;>
    simp [hr]

/-!  Claim theorems. -/

/-- C1: `run_verification` returns true exactly when both credentials are
truthy and the three answer-file checks and three reference-file checks pass
on the fetched contents; the process exit status is 0 exactly on a true
result and 1 exactly on a false result. -/
theorem runVerification_true_iff_all_checks (envToken envOrg : Option String)
    (answerResp refResp : HttpResponse) :
    ((runVerification CONFIG envToken envOrg answerResp refResp).result = true ↔
      (pyTruthyStr envToken = true ∧ pyTruthyStr envOrg = true ∧
       (verifyAnswerFileExistence CONFIG
         (getFileContent CONFIG CONFIG.FILES_TO_VERIFY.answer_file.path
           (buildHeaders CONFIG (envToken.getD "")) (envOrg.getD "") none answerResp).1).1 = true ∧
       (verifyAnswerFormat CONFIG
         ((getFileContent CONFIG CONFIG.FILES_TO_VERIFY.answer_file.path
           (buildHeaders CONFIG (envToken.getD "")) (envOrg.getD "") none answerResp).1.getD "")).1 = true ∧
       (verifyAnswerValue CONFIG
         ((getFileContent CONFIG CONFIG.FILES_TO_VERIFY.answer_file.path
           (buildHeaders CONFIG (envToken.getD "")) (envOrg.getD "") none answerResp).1.getD "")).1 = true ∧
       (verifyReferenceFile CONFIG
         (getFileContent CONFIG CONFIG.FILES_TO_VERIFY.reference_file.path
           (buildHeaders CONFIG (envToken.getD "")) (envOrg.getD "") none refResp).1).1 = true ∧
       (verifyRequiredSection CONFIG
         ((getFileContent CONFIG CONFIG.FILES_TO_VERIFY.reference_file.path
           (buildHeaders CONFIG (envToken.getD "")) (envOrg.getD "") none refResp).1.getD "")).1 = true ∧
       (verifyRequiredEntries CONFIG
         ((getFileContent CONFIG CONFIG.FILES_TO_VERIFY.reference_file.path
           (buildHeaders CONFIG (envToken.getD "")) (envOrg.getD "") none refResp).1.getD "")).1 = true)) ∧
    (mainExitCode CONFIG envToken envOrg answerResp refResp = 0 ↔
      (runVerification CONFIG envToken envOrg answerResp refResp).result = true) ∧
    (mainExitCode CONFIG envToken envOrg answerResp refResp = 1 ↔
      (runVerification CONFIG envToken envOrg answerResp refResp).result = false) := by
  refine ⟨?_, ?_, ?_⟩
  · rw [runVerification_result]
    simp only [Bool.and_eq_true, answerChecks_fst, referenceChecks_fst,
      verifyAnswerFileExistence_fst, verifyReferenceFile_fst]
    tauto
  · unfold mainExitCode
    cases h : (runVerification CONFIG envToken envOrg answerResp refResp).result <;> simp [h]
  · unfold mainExitCode
    cases h : (runVerification CONFIG envToken envOrg answerResp refResp).result <;> simp [h]

/-- C4: the format check passes exactly when the stripped content has the
`\d{4}-\d{2}-\d{2}` shape demanded by the configured regex, the value check
passes exactly when the stripped content equals the configured literal
`2023-11-15`, and on content `2023-11-16` the format check passes while the
value check fails reporting expected `2023-11-15` against actual `2023-11-16`. -/
theorem answer_format_value_characterization (content : String) :
    ((verifyAnswerFormat CONFIG content).1 = true ↔
      ∃ y1 y2 y3 y4 mo1 mo2 d1 d2 : Char,
        (pyStrip content).data = [y1, y2, y3, y4, '-', mo1, mo2, '-', d1, d2] ∧
        (y1.isDigit ∧ y2.isDigit ∧ y3.isDigit ∧ y4.isDigit ∧
         mo1.isDigit ∧ mo2.isDigit ∧ d1.isDigit ∧ d2.isDigit)) ∧
    ((verifyAnswerValue CONFIG content).1 = true ↔ pyStrip content = "2023-11-15") ∧
    verifyAnswerFormat CONFIG "2023-11-16" =
      (true, [Msg.formatOk "^\\d{4}-\\d{2}-\\d{2}$"]) ∧
    verifyAnswerValue CONFIG "2023-11-16" =
      (false, [Msg.valueMismatch "2023-11-15" "2023-11-16"]) := by
  refine ⟨?_, ?_, by decide, by decide⟩
  · have h1 : (verifyAnswerFormat CONFIG content).1 = reMatchDate (pyStrip content) := by
      unfold verifyAnswerFormat
      cases h : reMatchDate (pyStrip content) <;> simp [h, CONFIG]
    rw [h1, reMatchDate_pyStrip, dateShape_iff]
  · unfold verifyAnswerValue
    by_cases h : pyStrip content = "2023-11-15" <;> simp [h, CONFIG]

/-- C6: the required-entries check passes exactly when every configured entry
is a substring of the content; its output is one warning per missing entry in
configured order followed by the pass or fail line; and the required-section
check passes exactly when the configured heading is a substring of the
content. -/
theorem required_entries_section_characterization (content : String) :
    ((verifyRequiredEntries CONFIG content).1 = true ↔
      ∀ e ∈ ["C++ Voxel Engine Fundamentals", "Vulkan-based Voxel Rendering"],
        strContains content e = true) ∧
    ((verifyRequiredEntries CONFIG content).2 =
      (["C++ Voxel Engine Fundamentals", "Vulkan-based Voxel Rendering"].filter
          (fun e => !strContains content e)).map (Msg.entryMissing "README.md") ++
        (if ["C++ Voxel Engine Fundamentals", "Vulkan-based Voxel Rendering"].all
             (fun e => strContains content e) then
           [Msg.entriesAllPresent 2]
         else [Msg.entriesSomeMissing])) ∧
    ((verifyRequiredSection CONFIG content).1 = true ↔
      strContains content "## Voxel Engine Implementation" = true) := by
  refine ⟨?_, ?_, ?_⟩
  · simp only [verifyRequiredEntries, CONFIG, entriesScan_eq]
    cases h1 : strContains content "C++ Voxel Engine Fundamentals" <;>
      cases h2 : strContains content "Vulkan-based Voxel Rendering" <;>
        simp [h1, h2]
  · simp only [verifyRequiredEntries, CONFIG, entriesScan_eq]
    cases h1 : strContains content "C++ Voxel Engine Fundamentals" <;>
      cases h2 : strContains content "Vulkan-based Voxel Rendering" <;>
        simp [h1, h2]
  · unfold verifyRequiredSection
    cases h : strContains content "## Voxel Engine Implementation" <;> simp [h, CONFIG]

/-- C7: each of the six validator checks returns true and prints nothing when
its governing configuration flag is false, whatever content it is given. -/
theorem flags_false_checks_trivially_pass (cfg : Config) (c : String) (oc : Option String) :
    (cfg.VERIFICATION_FLOW.check_answer_file_existence = false →
      verifyAnswerFileExistence cfg oc = (true, [])) ∧
    (cfg.VERIFICATION_FLOW.check_answer_format = false →
      verifyAnswerFormat cfg c = (true, [])) ∧
    (cfg.VERIFICATION_FLOW.verify_answer_value = false →
      verifyAnswerValue cfg c = (true, [])) ∧
    (cfg.VERIFICATION_FLOW.check_reference_file = false →
      verifyReferenceFile cfg oc = (true, [])) ∧
    (cfg.VERIFICATION_FLOW.check_section_existence = false →
      verifyRequiredSection cfg c = (true, [])) ∧
    (cfg.VERIFICATION_FLOW.check_required_entries = false →
      verifyRequiredEntries cfg c = (true, [])) := by
  refine ⟨?_, ?_, ?_, ?_, ?_, ?_⟩ <;> intro h
  · simp [verifyAnswerFileExistence, h]
  · simp [verifyAnswerFormat, h]
  · simp [verifyAnswerValue, h]
  · simp [verifyReferenceFile, h]
  · simp [verifyRequiredSection, h]
  · simp [verifyRequiredEntries, h]

/-- C2: every failure mode of the file fetch — HTTP 404, any other non-200
status, a transport exception, or a base64/UTF-8 decode failure — yields the
same absent result `none` (so no distinction between them survives in the
returned value), with at least one diagnostic printed; the embedded function
is total, so no exception reaches the caller. -/
theorem getFileContent_failure_modes_absent (p : String) (hs : List (String × String))
    (o : String) (ref : Option String) (r : HttpResponse)
    (h : (∃ body, r = HttpResponse.resp 404 body) ∨
         (∃ code body, code ≠ 200 ∧ r = HttpResponse.resp code body) ∨
         (∃ e, r = HttpResponse.exn e) ∨
         (∃ body, r = HttpResponse.resp 200 body ∧
            decodeB64Utf8 (stripNewlines (jsonGetD body "content" "")) = none)) :
    (getFileContent CONFIG p hs o ref r).1 = none ∧
    (getFileContent CONFIG p hs o ref r).2.1 ≠ [] := by
  rcases h with ⟨body, rfl⟩ | ⟨code, body, hc, rfl⟩ | ⟨e, rfl⟩ | ⟨body, rfl, hdec⟩
  · simp [getFileContent, callGithubApi]
  · by_cases h4 : code = 404
    · subst h4
      simp [getFileContent, callGithubApi]
    · simp [getFileContent, callGithubApi, hc, h4]
  · simp [getFileContent, callGithubApi]
  · by_cases hb : body.isEmpty
    · simp [getFileContent, callGithubApi, pyTruthyDict, hb]
    · simp [getFileContent, callGithubApi, pyTruthyDict, hb, hdec]

/-- C2 witness: a transport exception on the answer-file fetch yields an
absent result and a printed diagnostic. -/
theorem getFileContent_failure_modes_absent_witness :
    (getFileContent CONFIG "ANSWER.md" [] "org" none (HttpResponse.exn "timeout")).1 = none ∧
    (getFileContent CONFIG "ANSWER.md" [] "org" none (HttpResponse.exn "timeout")).2.1 ≠ [] :=
  getFileContent_failure_modes_absent "ANSWER.md" [] "org" none (HttpResponse.exn "timeout")
    (Or.inr (Or.inr (Or.inl ⟨"timeout", rfl⟩)))

/-- C3: with either credential missing the run returns false, prints the
fatal environment diagnostic, and issues no HTTP request. -/
theorem missing_credentials_no_request (envToken envOrg : Option String)
    (a r : HttpResponse)
    (h : pyTruthyStr envToken = false ∨ pyTruthyStr envOrg = false) :
    (runVerification CONFIG envToken envOrg a r).result = false ∧
    (runVerification CONFIG envToken envOrg a r).requests = [] ∧
    Msg.envIncomplete ∈ (runVerification CONFIG envToken envOrg a r).output := by
  unfold runVerification
  rcases h with h | h <;> simp [loadEnvironment_fst, h]

/-- C3 witness: with the token variable unset (and the organization set) the
run fails with no request. -/
theorem missing_credentials_no_request_witness :
    (runVerification CONFIG none (some "acme")
      (HttpResponse.resp 200 []) (HttpResponse.resp 200 [])).result = false ∧
    (runVerification CONFIG none (some "acme")
      (HttpResponse.resp 200 []) (HttpResponse.resp 200 [])).requests = [] ∧
    Msg.envIncomplete ∈ (runVerification CONFIG none (some "acme")
      (HttpResponse.resp 200 []) (HttpResponse.resp 200 [])).output :=
  missing_credentials_no_request none (some "acme")
    (HttpResponse.resp 200 []) (HttpResponse.resp 200 []) (Or.inl rfl)

/-- C5: when the fetched answer content is absent (or empty), the run fails
on the existence check alone: the failure and step-failure diagnostics are
printed, and no format-check or value-check line appears anywhere in the
output. -/
theorem answer_step_absent_short_circuit (envToken envOrg : Option String)
    (a r : HttpResponse)
    (ht : pyTruthyStr envToken = true) (ho : pyTruthyStr envOrg = true)
    (hc : pyTruthyStr (getFileContent CONFIG "ANSWER.md"
            (buildHeaders CONFIG (envToken.getD "")) (envOrg.getD "") none a).1 = false) :
    (runVerification CONFIG envToken envOrg a r).result = false ∧
    Msg.answerFileMissing "ANSWER.md" ∈ (runVerification CONFIG envToken envOrg a r).output ∧
    Msg.answerStepFailed ∈ (runVerification CONFIG envToken envOrg a r).output ∧
    ((runVerification CONFIG envToken envOrg a r).output.all
      (fun m => !isFormatOrValueMsg m)) = true := by
  have hpath : CONFIG.FILES_TO_VERIFY.answer_file.path = "ANSWER.md" := rfl
  have hflag : CONFIG.VERIFICATION_FLOW.check_answer_file_existence = true := rfl
  have hach : answerChecks CONFIG
      (getFileContent CONFIG "ANSWER.md"
        (buildHeaders CONFIG (envToken.getD "")) (envOrg.getD "") none a).1 =
      (false, [Msg.answerFileMissing "ANSWER.md"]) := by
    unfold answerChecks verifyAnswerFileExistence
    simp [hc, hpath, hflag]
  have henv : (loadEnvironment CONFIG envToken envOrg).2 = [] := by
    unfold loadEnvironment
    simp [ht, ho]
  refine ⟨?_, ?_, ?_, ?_⟩ <;>
    · unfold runVerification
      simp [loadEnvironment_fst, hpath, ht, ho, hach, henv, List.all_append,
        isFormatOrValueMsg]
      try
        intro m hm
        have hnofv := getFileContent_no_fv CONFIG "ANSWER.md"
          (buildHeaders CONFIG (envToken.getD "")) (envOrg.getD "") none a m hm
        simpa [isFormatOrValueMsg] using hnofv

/-- C5 witness: a 404 on the answer-file fetch with valid credentials fails
the run on the existence check with no format or value diagnostics. -/
theorem answer_step_absent_short_circuit_witness :
    (runVerification CONFIG (some "tok") (some "acme")
      (HttpResponse.resp 404 []) (HttpResponse.resp 200 [])).result = false ∧
    Msg.answerFileMissing "ANSWER.md" ∈ (runVerification CONFIG (some "tok") (some "acme")
      (HttpResponse.resp 404 []) (HttpResponse.resp 200 [])).output ∧
    Msg.answerStepFailed ∈ (runVerification CONFIG (some "tok") (some "acme")
      (HttpResponse.resp 404 []) (HttpResponse.resp 200 [])).output ∧
    ((runVerification CONFIG (some "tok") (some "acme")
      (HttpResponse.resp 404 []) (HttpResponse.resp 200 [])).output.all
      (fun m => !isFormatOrValueMsg m)) = true :=
  answer_step_absent_short_circuit (some "tok") (some "acme")
    (HttpResponse.resp 404 []) (HttpResponse.resp 200 []) rfl rfl (by decide)

/-- C8: verification is deterministic — equal environment contents and equal
HTTP responses give the same boolean result and the same ordered diagnostic
output. -/
theorem runVerification_deterministic (t1 o1 : Option String) (a1 r1 : HttpResponse)
    (t2 o2 : Option String) (a2 r2 : HttpResponse)
    (ht : t1 = t2) (ho : o1 = o2) (ha : a1 = a2) (hr : r1 = r2) :
    (runVerification CONFIG t1 o1 a1 r1).result =
      (runVerification CONFIG t2 o2 a2 r2).result ∧
    (runVerification CONFIG t1 o1 a1 r1).output =
      (runVerification CONFIG t2 o2 a2 r2).output := by
  subst ht
  subst ho
  subst ha
  subst hr
  exact ⟨rfl, rfl⟩

/-- C8 witness: two runs at one concrete input agree on result and output. -/
theorem runVerification_deterministic_witness :
    (runVerification CONFIG (some "tok") (some "acme")
      (HttpResponse.resp 404 []) (HttpResponse.exn "x")).result =
      (runVerification CONFIG (some "tok") (some "acme")
        (HttpResponse.resp 404 []) (HttpResponse.exn "x")).result ∧
    (runVerification CONFIG (some "tok") (some "acme")
      (HttpResponse.resp 404 []) (HttpResponse.exn "x")).output =
      (runVerification CONFIG (some "tok") (some "acme")
        (HttpResponse.resp 404 []) (HttpResponse.exn "x")).output :=
  runVerification_deterministic (some "tok") (some "acme")
    (HttpResponse.resp 404 []) (HttpResponse.exn "x")
    (some "tok") (some "acme") (HttpResponse.resp 404 []) (HttpResponse.exn "x")
    rfl rfl rfl rfl

/-- C9: the required-entries check is gated by the conjunction of the flow
flag `check_required_entries` and the file flag `check_entries`; if either is
false it returns true with no output, whatever the content. -/
theorem entries_check_flag_gated (cfg : Config) (content : String)
    (h : cfg.VERIFICATION_FLOW.check_required_entries = false ∨
         cfg.FILES_TO_VERIFY.reference_file.content_checks.check_entries = false) :
    verifyRequiredEntries cfg content = (true, []) := by
  rcases h with h | h <;> simp [verifyRequiredEntries, h]

/-- C9 witness: with only `check_entries` off, content missing every required
entry still passes silently. -/
theorem entries_check_flag_gated_witness :
    verifyRequiredEntries cfgEntriesOff "no voxel entries here" = (true, []) :=
  entries_check_flag_gated cfgEntriesOff "no voxel entries here" (Or.inr rfl)

/-- C10: a 200 response whose non-empty JSON body lacks the `content` field
makes the fetch return the present empty string with no diagnostic; the
existence check then fails on that empty content exactly as it does on absent
content. -/
theorem empty_content_field_present_result (p : String) (hs : List (String × String))
    (o : String) (body : List (String × String))
    (hne : body ≠ []) (hlk : body.lookup "content" = none) :
    (getFileContent CONFIG p hs o none (HttpResponse.resp 200 body)).1 = some "" ∧
    (getFileContent CONFIG p hs o none (HttpResponse.resp 200 body)).2.1 = [] ∧
    verifyAnswerFileExistence CONFIG (some "") =
      (false, [Msg.answerFileMissing "ANSWER.md"]) ∧
    verifyAnswerFileExistence CONFIG (some "") = verifyAnswerFileExistence CONFIG none := by
  have hbe : body.isEmpty = false := by
    cases body with
    | nil => exact absurd rfl hne
    | cons x t => rfl
  have hget : jsonGetD body "content" "" = "" := by simp [jsonGetD, hlk]
  have hdec : decodeB64Utf8 (stripNewlines "") = some "" := by decide
  refine ⟨?_, ?_, by decide, by decide⟩ <;>
    simp [getFileContent, callGithubApi, pyTruthyDict, hbe, hget, hdec]

/-- C10 witness: the concrete body with only a `name` field. -/
theorem empty_content_field_present_result_witness :
    (getFileContent CONFIG "ANSWER.md" [] "org" none
      (HttpResponse.resp 200 [("name", "x")])).1 = some "" ∧
    (getFileContent CONFIG "ANSWER.md" [] "org" none
      (HttpResponse.resp 200 [("name", "x")])).2.1 = [] ∧
    verifyAnswerFileExistence CONFIG (some "") =
      (false, [Msg.answerFileMissing "ANSWER.md"]) ∧
    verifyAnswerFileExistence CONFIG (some "") = verifyAnswerFileExistence CONFIG none :=
  empty_content_field_present_result "ANSWER.md" [] "org" [("name", "x")]
    (by decide) (by decide)
